/-
Verification of the signaling core of wire-webapp: a shallow embedding of
`src/script/calling/callAPI.ts`, `src/script/event/WebSocketService.js` and
the `CallingRepository` (calling orchestrator) module, together with theorems
settling the specification claims about call-session bookkeeping, transport
keepalive/reconnect behaviour, configuration caching and inbound event
handling.  Stateful methods are embedded as explicit state-passing functions;
JavaScript exceptions are embedded as `Except`; external collaborators
(the avs engine's `recv_msg`, the browser's `JSON.parse`, the backend fetch)
are supplied as explicit oracle arguments at the points the source calls them.
-/
import Mathlib

/-! ## Embedding of `src/script/calling/callAPI.ts` -/

/-- The `CALL_MESSAGE_TYPE` enum of callAPI.ts. -/
inductive CALL_MESSAGE_TYPE
  | CANCEL | GROUP_CHECK | GROUP_LEAVE | GROUP_SETUP | GROUP_START
  | HANGUP | PROP_SYNC | REJECT | SETUP | UPDATE
deriving DecidableEq

/-- The `CALL_TYPE` enum of callAPI.ts (`NORMAL = 0, VIDEO = 1, FORCED_AUDIO = 2`). -/
inductive CALL_TYPE
  | NORMAL | VIDEO | FORCED_AUDIO
deriving DecidableEq

/-- The `CONVERSATION_TYPE` enum of callAPI.ts. -/
inductive CONVERSATION_TYPE
  | ONEONONE | GROUP | CONFERENCE
deriving DecidableEq

/-- The `CALL_STATE` enum of callAPI.ts. -/
inductive CALL_STATE
  | NONE | OUTGOING | INCOMING | ANSWERED | MEDIA_ESTAB
  | TERM_LOCAL | TERM_REMOTE | UNKNOWN
deriving DecidableEq

/-- The numeric values assigned to `CALL_STATE` in the source
(note the gap: 5 is unused, `TERM_LOCAL = 6`). -/
def CALL_STATE.val : CALL_STATE → Nat
  | .NONE => 0
  | .OUTGOING => 1
  | .INCOMING => 2
  | .ANSWERED => 3
  | .MEDIA_ESTAB => 4
  | .TERM_LOCAL => 6
  | .TERM_REMOTE => 7
  | .UNKNOWN => 8

/-- The states of a `CALL_STATE` that the design treats as terminal
(`TERM_LOCAL`, `TERM_REMOTE`, `NONE`); used to phrase the claims about
non-terminal active calls. -/
def CALL_STATE.isTerminal : CALL_STATE → Bool
  | .NONE => true
  | .TERM_LOCAL => true
  | .TERM_REMOTE => true
  | _ => false

/-- The `WCall` class of callAPI.ts.  The constructor leaves `state`
unassigned; `callStart` sets it to `OUTGOING` right after construction, so the
embedding carries the field and `callStart` builds the record with it set. -/
structure WCall where
  conversationId : String
  state : CALL_STATE
  callType : CALL_TYPE
  conversationType : CONVERSATION_TYPE
  audioCbr : Bool
deriving DecidableEq

/-- The `WUser` class of callAPI.ts.  The `callbacks` field (the
`sendMessage`/`requestConfig` function table handed to `callCreate`) is the
send path to external collaborators; the message actually sent is embedded
separately as `callStartSetupMessage`. -/
structure WUser where
  userId : String
  clientId : String
deriving DecidableEq

/-- The module-level `state : CallState` of callAPI.ts: the active-call map
(a JS object keyed by call identifier, embedded as an ordered association
list with JS object-assignment semantics) and the opaque RTC configuration
stored by `callConfigUpdate`. -/
structure CallAPIState where
  callConfig : Option String
  activeCalls : List (String × WCall)
deriving DecidableEq

/-- `generateCallId` of callAPI.ts: `call.userId + call.clientId + conversationId`. -/
def generateCallId (call : WUser) (conversationId : String) : String :=
  call.userId ++ call.clientId ++ conversationId

/-- Property lookup `state.activeCalls[callIdentifier]` on the JS object. -/
def lookupActiveCall (m : List (String × WCall)) (k : String) : Option WCall :=
  match m.find? (fun p => p.1 = k) with
  | some p => some p.2
  | none => none

/-- Property assignment `state.activeCalls[callIdentifier] = wCall` on the JS
object: replaces the value in place when the key is present, otherwise appends
the new key. -/
def storeActiveCall (m : List (String × WCall)) (k : String) (c : WCall) :
    List (String × WCall) :=
  if (m.find? (fun p => p.1 = k)).isSome then
    m.map (fun p => if p.1 = k then (k, c) else p)
  else
    m ++ [(k, c)]

/-- `callConfigUpdate` of callAPI.ts. -/
def callConfigUpdate (st : CallAPIState) (config : String) : CallAPIState :=
  { st with callConfig := some config }

/-- `callStart` of callAPI.ts.  The source looks up any existing active call
for the derived identifier, but the conditional on it is an empty placeholder
(`if (activeCall) { //Do Stuff }`); it then unconditionally constructs a new
`WCall`, sets its state to `OUTGOING`, stores it under the identifier
(overwriting any existing entry) and returns `true`.  The media/peer-connection
side effects go to external collaborators; the SETUP message assembled in the
asynchronous continuation is embedded as `callStartSetupMessage`. -/
def callStart (st : CallAPIState) (wUser : WUser) (conversationId : String)
    (callType : CALL_TYPE) (conversationType : CONVERSATION_TYPE)
    (audioCbr : Bool) : CallAPIState × Bool :=
  let callIdentifier := generateCallId wUser conversationId
  let wCall : WCall :=
    { conversationId := conversationId
      state := CALL_STATE.OUTGOING
      callType := callType
      conversationType := conversationType
      audioCbr := audioCbr }
  ({ st with activeCalls := storeActiveCall st.activeCalls callIdentifier wCall },
   true)

/-- `callGetState` of callAPI.ts:
`return foundCall ? foundCall.state : CALL_STATE.UNKNOWN`. -/
def callGetState (st : CallAPIState) (wUser : WUser) (conversationId : String) :
    CALL_STATE :=
  match lookupActiveCall st.activeCalls (generateCallId wUser conversationId) with
  | some foundCall => foundCall.state
  | none => CALL_STATE.UNKNOWN

/-- The `props` object placed in every outbound payload by
`buildMessagePayload`. -/
structure CallProps where
  audiosend : String
  screensend : String
  videosend : String
deriving DecidableEq

/-- The structured payload serialized by `buildMessagePayload` (the source
returns `JSON.stringify` of exactly this object). -/
structure MessagePayload where
  resp : Bool
  type : CALL_MESSAGE_TYPE
  version : String
  props : CallProps
  sdp : String
  sessid : String
deriving DecidableEq

/-- `buildMessagePayload` of callAPI.ts, embedded as the structured object it
serializes. -/
def buildMessagePayload (type : CALL_MESSAGE_TYPE) (sessid : String)
    (sdp : String) (isReponse : Bool) : MessagePayload :=
  { resp := isReponse
    type := type
    version := "3.0"
    props := { audiosend := "true", screensend := "false", videosend := "false" }
    sdp := sdp
    sessid := sessid }

/-- The SETUP message assembled in `callStart`'s deferred continuation:
`buildMessagePayload(CALL_MESSAGE_TYPE.SETUP, 'felix', transformedSdp.sdp.sdp, false)`
— the session id passed is the hardcoded string literal `'felix'`. -/
def callStartSetupMessage (transformedSdp : String) : MessagePayload :=
  buildMessagePayload CALL_MESSAGE_TYPE.SETUP "felix" transformedSdp false

/-- A character of the `\w` class, i.e. `[A-Za-z0-9_]`. -/
def isWordChar (c : Char) : Bool :=
  c.isAlphanum || c = '_'

/-- The session-id pattern of the specification: exactly four characters,
each in `[A-Za-z0-9_]`. -/
def matchesSessionIdPattern (s : String) : Bool :=
  s.length = 4 && s.toList.all isWordChar

/-! ## Embedding of `src/script/event/WebSocketService.js` -/

/-- The `WebSocketService.CHANGE_TRIGGER` enumeration. -/
inductive CHANGE_TRIGGER
  | CLEANUP | CLOSE | ERROR | LOGOUT | OFFLINE | ONLINE
  | PAGE_NAVIGATION | PING_INTERVAL | READY_STATE | WARNING_BAR
deriving DecidableEq

/-- `WebSocketService.CONFIG.PING_INTERVAL`:
`TimeUtil.UNITS_IN_MILLIS.SECOND * 5` milliseconds. -/
def PING_INTERVAL_MS : Nat := 1000 * 5

/-- `WebSocketService.CONFIG.RECONNECT_INTERVAL`:
`TimeUtil.UNITS_IN_MILLIS.SECOND * 15` milliseconds. -/
def RECONNECT_INTERVAL_MS : Nat := 1000 * 15

/-- The browser WebSocket handle as the service observes it: its
`readyState` (`0` connecting, `1` open, `2` closing, `3` closed) and whether
the service's `onerror`/`onclose` handlers are currently attached (`reset`
detaches them before closing, and guards on `this.socket.onclose`). -/
structure WsSocket where
  readyState : Nat
  handlersAttached : Bool
deriving DecidableEq

/-- Observable side effects of the WebSocketService methods: entering the
`reconnect` procedure with a trigger, publishing the access-token renewal
request, opening a socket to a URL, arming the delayed reconnect timer,
publishing the connectivity warning, sending a `'ping'` frame, publishing the
reconnected/online signals, and delivering a parsed notification upward. -/
inductive WsEffect
  | reconnectTriggered (trigger : CHANGE_TRIGGER)
  | requestTokenRefresh
  | connectAttempt (url : String)
  | scheduleReconnect (delayMs : Nat)
  | showConnectivityWarning
  | sendPingFrame
  | reconnectedSignal
  | notify (payload : String)
deriving DecidableEq

/-- The mutable fields of a `WebSocketService` instance, plus the two pieces
of its environment it reads synchronously: `backendClient.webSocketUrl` /
`accessToken` (for the connection URL) and the truthiness of the stored
access-token expiration (`loadValue(StorageKey.AUTH.ACCESS_TOKEN.EXPIRATION)`),
which `reconnect` checks before attempting a socket open.  Timer ids are
embedded as armed/not-armed flags. -/
structure WsState where
  webSocketUrl : String
  accessToken : String
  clientId : Option String
  connectionUrl : String
  socket : Option WsSocket
  pingIntervalArmed : Bool
  hasAlreadySentUnansweredPing : Bool
  reconnectTimerArmed : Bool
  reconnectCount : Nat
  pendingReconnectTrigger : Option CHANGE_TRIGGER
  accessTokenStored : Bool
deriving DecidableEq

/-- JavaScript exceptions that can escape the embedded code: the
`TypeError` of dereferencing an undefined socket, and the `SyntaxError`
thrown by `JSON.parse` on malformed input. -/
inductive JsError
  | typeError
  | jsonParseError
deriving DecidableEq

/-- The teardown half of `reset(trigger, reconnect = false)`: when a socket
exists with handlers still attached, detach `onerror`/`onclose`, close the
socket, clear the ping interval and the reconnect timeout, and clear the
pending-ping flag.  (`reset` with `reconnect = true` additionally invokes
`reconnect`; see `reset` below, which is what the socket `onerror`/`onclose`
handlers call.) -/
def resetTeardown (s : WsState) : WsState :=
  match s.socket with
  | some sock =>
    if sock.handlersAttached then
      { s with
        socket := some { readyState := 2, handlersAttached := false }
        pingIntervalArmed := false
        reconnectTimerArmed := false
        hasAlreadySentUnansweredPing := false }
    else s
  | none => s

/-- The connection URL computed at the top of `connect`:
`webSocketUrl + '/await?access_token=' + accessToken`, with
`client=<clientId>` appended when a client id is bound. -/
def computeConnectionUrl (s : WsState) : String :=
  let url := s.webSocketUrl ++ "/await?access_token=" ++ s.accessToken
  match s.clientId with
  | some cid => url ++ "&client=" ++ cid
  | none => url

/-- `connect(onNotification)`: computes the connection URL, performs
`reset(CLEANUP)` (teardown only) when a socket object already exists, and
opens a fresh socket with handlers attached.  The arming of the ping interval
happens in the asynchronous `onopen` handler, embedded separately as
`socketOpened`. -/
def connect (s : WsState) : WsState × List WsEffect :=
  let s1 := { s with connectionUrl := computeConnectionUrl s }
  let s2 := if s1.socket.isSome then resetTeardown s1 else s1
  ({ s2 with socket := some { readyState := 0, handlersAttached := true } },
   [WsEffect.connectAttempt s1.connectionUrl])

/-- The `socket.onopen` handler: the socket becomes open and the fixed
`PING_INTERVAL` keepalive timer is started. -/
def socketOpened (s : WsState) : WsState :=
  { s with
    socket := some { readyState := 1, handlersAttached := true }
    pingIntervalArmed := true }

/-- `reconnect(trigger)`.  When the stored access-token expiration is absent
(falsy), no socket open is attempted: the trigger is recorded as the pending
reconnect trigger and a token renewal is published.  Otherwise the attempt
counter is incremented; the first attempt calls `connect` immediately, and
every later attempt arms a `RECONNECT_INTERVAL` timeout instead.  Entry into
the procedure is recorded as a `reconnectTriggered` effect. -/
def reconnect (s : WsState) (trigger : CHANGE_TRIGGER) : WsState × List WsEffect :=
  if s.accessTokenStored = false then
    ({ s with pendingReconnectTrigger := some trigger },
     [WsEffect.reconnectTriggered trigger, WsEffect.requestTokenRefresh])
  else
    let s1 := { s with reconnectCount := s.reconnectCount + 1 }
    if s1.reconnectCount = 1 then
      let r := connect s1
      (r.1, WsEffect.reconnectTriggered trigger :: r.2)
    else
      ({ s1 with reconnectTimerArmed := true },
       [WsEffect.reconnectTriggered trigger,
        WsEffect.scheduleReconnect RECONNECT_INTERVAL_MS])

/-- The `.then` continuation of a successful reconnect attempt: the attempt
counter resets to zero and `reconnected()` publishes the online signal. -/
def reconnectSucceeded (s : WsState) : WsState × List WsEffect :=
  ({ s with reconnectCount := 0 }, [WsEffect.reconnectedSignal])

/-- `reset(trigger, reconnect)`: teardown, then — when `reconnect` is true —
publish the connectivity warning and invoke the reconnect procedure. -/
def reset (s : WsState) (trigger : CHANGE_TRIGGER) (shouldReconnect : Bool) :
    WsState × List WsEffect :=
  let s1 := resetTeardown s
  if shouldReconnect then
    let r := reconnect s1 trigger
    (r.1, WsEffect.showConnectivityWarning :: r.2)
  else (s1, [])

/-- `pendingReconnect()`: when a pending reconnect trigger is recorded,
invoke `reconnect` with it and afterwards set the recorded trigger to
`undefined` (the source clears it after the `reconnect` call returns). -/
def pendingReconnect (s : WsState) : WsState × List WsEffect :=
  match s.pendingReconnectTrigger with
  | some trigger =>
    let r := reconnect s trigger
    ({ r.1 with pendingReconnectTrigger := none }, r.2)
  | none => (s, [])

/-- `sendPing()`, the keepalive-timer callback.  Dereferencing
`this.socket.readyState` on an undefined socket raises a `TypeError`.  On an
open socket: a still-pending previous ping is a liveness failure and invokes
`reconnect(PING_INTERVAL)`; otherwise `'ping'` is sent and the pending flag
set.  On a non-open socket, `reconnect(READY_STATE)` is invoked. -/
def sendPing (s : WsState) : Except JsError (WsState × List WsEffect) :=
  match s.socket with
  | none => Except.error JsError.typeError
  | some sock =>
    if sock.readyState = 1 then
      if s.hasAlreadySentUnansweredPing then
        Except.ok (reconnect s CHANGE_TRIGGER.PING_INTERVAL)
      else
        Except.ok ({ s with hasAlreadySentUnansweredPing := true },
                   [WsEffect.sendPingFrame])
    else
      Except.ok (reconnect s CHANGE_TRIGGER.READY_STATE)

/-- The `socket.onmessage` handler body (after the blob is decoded to text):
the literal text `'pong'` clears the pending-ping flag; any other text is fed
to `JSON.parse` and the result delivered to `onNotification`.  The parse is
supplied as an oracle `jsonOk` standing for the browser's `JSON.parse`
acceptance; when it rejects, the source has no try/catch, so the `SyntaxError`
escapes the handler. -/
def onSocketMessage (jsonOk : String → Bool) (s : WsState) (text : String) :
    Except JsError (WsState × List WsEffect) :=
  if text = "pong" then
    Except.ok ({ s with hasAlreadySentUnansweredPing := false }, [])
  else if jsonOk text then
    Except.ok (s, [WsEffect.notify text])
  else
    Except.error JsError.jsonParseError

/-- Number of `reconnectTriggered PING_INTERVAL` entries in an effect list. -/
def countPingReconnects : List WsEffect → Nat
  | [] => 0
  | WsEffect.reconnectTriggered CHANGE_TRIGGER.PING_INTERVAL :: rest =>
      countPingReconnects rest + 1
  | _ :: rest => countPingReconnects rest

/-! ## Embedding of the `CallingRepository` module (calling orchestrator) -/

/-- The states of the external avs-web `STATE` enumeration that the
orchestrator source references (`OUTGOING` in `_checkCallingSupport`;
`INCOMING`, `REJECTED`, `ONGOING`, `ANSWER` in `_checkConcurrentJoinedCall`). -/
inductive AVS_STATE
  | OUTGOING | INCOMING | REJECTED | ONGOING | ANSWER
deriving DecidableEq

/-- The `MediaType` enumeration as used by the orchestrator. -/
inductive MediaType
  | AUDIO | AUDIO_VIDEO | SCREEN
deriving DecidableEq

/-- The `z.error.CallError.TYPE` values referenced by the orchestrator. -/
inductive CallErrorType
  | NOT_SUPPORTED | WRONG_STATE | MISTARGETED_MESSAGE | NOT_FOUND
deriving DecidableEq

/-- The slice of a `Conversation` entity read by `_checkCallingSupport`:
its participant id list and its `supportsVideoCall(isOutgoingCall)` method
(kept abstract as a boolean function of the outgoing flag). -/
structure ConversationEntity where
  participatingUserIds : List String
  supportsVideoCall : Bool → Bool

/-- `_checkCallingSupport(conversationEntity, mediaType, callState)`:
rejects with `NOT_SUPPORTED` when the conversation has zero participants,
when an outgoing call is attempted without browser calling support, or when a
video call is attempted in a conversation that does not support it; resolves
otherwise.  The browser capability `Environment.browser.supports.calling` is
passed in as `supportsCalling`.  Note: nothing in the repository invokes this
method — `startCall` calls the calling api directly (see `startCall`). -/
def checkCallingSupport (supportsCalling : Bool)
    (conversationEntity : ConversationEntity) (mediaType : MediaType)
    (callState : AVS_STATE) : Except CallErrorType Unit :=
  if conversationEntity.participatingUserIds.length = 0 then
    Except.error CallErrorType.NOT_SUPPORTED
  else if callState = AVS_STATE.OUTGOING ∧ supportsCalling = false then
    Except.error CallErrorType.NOT_SUPPORTED
  else if mediaType = MediaType.AUDIO_VIDEO ∧
      conversationEntity.supportsVideoCall (decide (callState = AVS_STATE.OUTGOING)) = false then
    Except.error CallErrorType.NOT_SUPPORTED
  else
    Except.ok ()

/-- `CallingRepository.startCall(conversationId, conversationType, callType)`:
forwards directly to the calling api's `start` with `audioCbr = false`,
without any precondition check (`_checkCallingSupport` is never invoked on
this path).  The in-repository implementation of the start capability is
`callStart` of callAPI.ts, which the embedding plugs in here. -/
def startCall (st : CallAPIState) (wUser : WUser) (conversationId : String)
    (conversationType : CONVERSATION_TYPE) (callType : CALL_TYPE) :
    CallAPIState × Bool :=
  callStart st wUser conversationId callType conversationType false

/-- The `TERMINATION_REASON` used by the orchestrator's CANCEL handling
(only `MISSED` is referenced in the embedded slice). -/
inductive TERMINATION_REASON
  | MISSED
deriving DecidableEq

/-- One stored call of `CallingRepository.activeCalls` as far as
`onCallEvent` can observe it (the handler never touches the collection). -/
structure RepoCall where
  conversationId : String
deriving DecidableEq

/-- The orchestrator state read/written by `onCallEvent`: its
`activeCalls` observable array. -/
structure RepoState where
  activeCalls : List RepoCall
deriving DecidableEq

/-- Records injected into the Event Sink (`eventRepository.injectEvent`) by
the orchestrator: `EventBuilder.buildVoiceChannelActivate` and
`EventBuilder.buildVoiceChannelDeactivate`. -/
inductive SinkRecord
  | voiceChannelActivate (conversationId userId time : String)
  | voiceChannelDeactivate (conversationId userId : String)
      (reason : TERMINATION_REASON) (time : String)
deriving DecidableEq

/-- The slice of an inbound backend calling event destructured by
`onCallEvent`: `content.type`, `conversation`, `from`, `sender`, `time`. -/
structure InboundCallEvent where
  contentType : String
  conversation : String
  fromUser : String
  sender : String
  time : String
deriving DecidableEq

/-- `onCallEvent(event, source)`: the serialized content is injected into the
external engine via `recv_msg` (its integer result is supplied as the oracle
`recvRes`); a non-zero result logs a warning and aborts.  On success, a
`SETUP` content type injects an activation record and a `CANCEL` content type
injects a deactivation record with reason `MISSED` — without consulting the
`activeCalls` collection, which the handler never reads or writes. -/
def onCallEvent (recvRes : Int) (repo : RepoState) (ev : InboundCallEvent) :
    RepoState × List SinkRecord :=
  if recvRes ≠ 0 then
    (repo, [])
  else if ev.contentType = "SETUP" then
    (repo, [SinkRecord.voiceChannelActivate ev.conversation ev.fromUser ev.time])
  else if ev.contentType = "CANCEL" then
    (repo, [SinkRecord.voiceChannelDeactivate ev.conversation ev.fromUser
              TERMINATION_REASON.MISSED ev.time])
  else
    (repo, [])

/-- The millisecond-to-second conversion used by `onCallEvent` before handing
timestamps to the engine: `Math.floor(timestamp / 1000)`. -/
def toSecond (timestamp : Int) : Int :=
  Int.fdiv timestamp 1000

/-! ### Calling configuration caching (`getConfig` / `_getConfigFromBackend`) -/

/-- `CallingRepository.CONFIG.DEFAULT_CONFIG_TTL`: 60 minutes in seconds. -/
def DEFAULT_CONFIG_TTL : ℚ := 60 * 60

/-- The body fetched from `GET /calls/config/v2` as far as the caching logic
reads it: its `ttl` field in seconds (absent field embedded as `none`;
the ice-server list is opaque to the caching logic). -/
structure FetchedConfig where
  ttl : Option ℚ
deriving DecidableEq

/-- The stored calling configuration: the fetched body plus the `expiration`
date (an integral millisecond timestamp, as produced by `new Date(...)`)
attached by `_getConfigFromBackend`. -/
structure StoredConfig where
  ttl : Option ℚ
  expiration : Int
deriving DecidableEq

/-- The configuration-cache fields of the repository: `callingConfig` and the
armed pre-emptive refresh timeout (embedded as the delay it was armed with). -/
structure ConfigState where
  callingConfig : Option StoredConfig
  callingConfigTimeout : Option ℚ
deriving DecidableEq

/-- The timeout computed by `_getConfigFromBackend`:
`ttl = callingConfig.ttl * 0.9 || DEFAULT_CONFIG_TTL` followed by
`Math.min(ttl, DEFAULT_CONFIG_TTL) * 1000` milliseconds (an absent or zero
`ttl` is falsy and falls back to the default). -/
def configTimeoutMs (resp : FetchedConfig) : ℚ :=
  let adjusted : ℚ :=
    match resp.ttl with
    | some t => if t * (9 / 10) = 0 then DEFAULT_CONFIG_TTL else t * (9 / 10)
    | none => DEFAULT_CONFIG_TTL
  min adjusted DEFAULT_CONFIG_TTL * 1000

/-- `_getConfigFromBackend()` with the backend response supplied as `resp`
and the current time `now` in integral milliseconds: on a truthy response it
clears the old refresh timeout, stamps
`expiration = new Date(Date.now() + timeout)` (the date stores the floor of
the millisecond value), stores the config, arms the refresh timeout, and
returns the stored config; a falsy response resolves with nothing. -/
def getConfigFromBackend (s : ConfigState) (now : Int)
    (resp : Option FetchedConfig) : ConfigState × Option StoredConfig :=
  match resp with
  | none => (s, none)
  | some cfg =>
    let timeout := configTimeoutMs cfg
    let stored : StoredConfig :=
      { ttl := cfg.ttl, expiration := ⌊(now : ℚ) + timeout⌋ }
    ({ callingConfig := some stored, callingConfigTimeout := some timeout },
     some stored)

/-- Outcome of a `getConfig` call: the locally cached value was returned, or
the backend fetch path was taken (carrying its result). -/
inductive GetConfigOutcome
  | cached (c : StoredConfig)
  | fetched (c : Option StoredConfig)
deriving DecidableEq

/-- Whether a `getConfig` outcome involved a backend fetch. -/
def GetConfigOutcome.isFetch : GetConfigOutcome → Bool
  | .cached _ => false
  | .fetched _ => true

/-- `getConfig()` at current time `now`: when a config is stored and
`expiration.getTime() < Date.now()` is false, the cached value is returned
with no backend request; otherwise the stale config is cleared (when present)
and `_getConfigFromBackend` runs. -/
def getConfig (s : ConfigState) (now : Int) (resp : Option FetchedConfig) :
    ConfigState × GetConfigOutcome :=
  match s.callingConfig with
  | some stored =>
    if stored.expiration < now then
      let s1 : ConfigState := { s with callingConfig := none }
      let r := getConfigFromBackend s1 now resp
      (r.1, GetConfigOutcome.fetched r.2)
    else
      (s, GetConfigOutcome.cached stored)
  | none =>
    let r := getConfigFromBackend s now resp
    (r.1, GetConfigOutcome.fetched r.2)

/-! ## A concrete JSON syntax checker

The message handler's parse step is the browser's `JSON.parse`, an external
platform primitive; the handler embedding takes its acceptance as an oracle.
To evaluate the handler on concrete frames, the following small recursive
descent checker decides JSON syntax (it is slightly lenient — it accepts any
escape character and trailing commas — which is irrelevant at the concrete
inputs the theorems evaluate it on, such as the non-JSON text `"hello"` and
the JSON literal `"null"`). -/

/-- JSON insignificant whitespace characters. -/
def isJsonWsChar (c : Char) : Bool :=
  c = ' ' || c = '\t' || c = '\n' || c = '\r'

/-- Drop leading JSON whitespace. -/
def skipJsonWs : List Char → List Char
  | [] => []
  | c :: cs => if isJsonWsChar c then skipJsonWs cs else c :: cs

/-- Consume an expected literal character sequence. -/
def stripExpect : List Char → List Char → Option (List Char)
  | [], rest => some rest
  | e :: es, c :: rest => if c = e then stripExpect es rest else none
  | _ :: _, [] => none

/-- Consume the body of a JSON string after the opening quote, up to and
including the closing quote. -/
def jsonStringBody : Nat → List Char → Option (List Char)
  | 0, _ => none
  | _ + 1, [] => none
  | fuel + 1, c :: cs =>
    if c = '"' then some cs
    else if c = '\\' then
      match cs with
      | [] => none
      | _ :: cs2 => jsonStringBody fuel cs2
    else jsonStringBody fuel cs

/-- Consume one or more decimal digits. -/
def dropDigits : List Char → Option (List Char)
  | [] => none
  | c :: cs => if c.isDigit then some ((c :: cs).dropWhile Char.isDigit) else none

/-- Consume an optional fraction part `.digits`. -/
def jsonFracPart (cs : List Char) : Option (List Char) :=
  match cs with
  | '.' :: r => dropDigits r
  | _ => some cs

/-- Consume an optional exponent part `(e|E)(+|-)?digits`. -/
def jsonExpPart (cs : List Char) : Option (List Char) :=
  match cs with
  | 'e' :: r =>
    (match r with
     | '+' :: r2 => dropDigits r2
     | '-' :: r2 => dropDigits r2
     | _ => dropDigits r)
  | 'E' :: r =>
    (match r with
     | '+' :: r2 => dropDigits r2
     | '-' :: r2 => dropDigits r2
     | _ => dropDigits r)
  | _ => some cs

/-- Consume a JSON number `-?digits(.digits)?((e|E)(+|-)?digits)?`. -/
def jsonNumber (cs : List Char) : Option (List Char) :=
  let cs1 := match cs with
    | '-' :: r => r
    | _ => cs
  match dropDigits cs1 with
  | none => none
  | some r1 =>
    match jsonFracPart r1 with
    | none => none
    | some r2 => jsonExpPart r2

mutual

/-- Consume one JSON value. -/
def jsonValue : Nat → List Char → Option (List Char)
  | 0, _ => none
  | fuel + 1, cs =>
    match skipJsonWs cs with
    | [] => none
    | 'n' :: r => stripExpect ['u', 'l', 'l'] r
    | 't' :: r => stripExpect ['r', 'u', 'e'] r
    | 'f' :: r => stripExpect ['a', 'l', 's', 'e'] r
    | '"' :: r => jsonStringBody (r.length + 1) r
    | '[' :: r => jsonArrayRest fuel r
    | '{' :: r => jsonObjectRest fuel r
    | c :: r => if c = '-' || c.isDigit then jsonNumber (c :: r) else none

/-- Consume the rest of a JSON array after the opening bracket. -/
def jsonArrayRest : Nat → List Char → Option (List Char)
  | 0, _ => none
  | fuel + 1, cs =>
    match skipJsonWs cs with
    | ']' :: r => some r
    | cs2 =>
      match jsonValue fuel cs2 with
      | none => none
      | some r =>
        match skipJsonWs r with
        | ',' :: r2 => jsonArrayRest fuel r2
        | ']' :: r2 => some r2
        | _ => none

/-- Consume the rest of a JSON object after the opening brace. -/
def jsonObjectRest : Nat → List Char → Option (List Char)
  | 0, _ => none
  | fuel + 1, cs =>
    match skipJsonWs cs with
    | '}' :: r => some r
    | '"' :: r =>
      (match jsonStringBody (r.length + 1) r with
       | none => none
       | some r1 =>
         match skipJsonWs r1 with
         | ':' :: r2 =>
           (match jsonValue fuel r2 with
            | none => none
            | some r3 =>
              match skipJsonWs r3 with
              | ',' :: r4 => jsonObjectRest fuel r4
              | '}' :: r4 => some r4
              | _ => none)
         | _ => none)
    | _ => none

end

/-- Whether a string is syntactically valid JSON: one value followed only by
whitespace. -/
def jsonParseAccepts (s : String) : Bool :=
  let cs := s.toList
  match jsonValue (cs.length + 1) cs with
  | some rest => (skipJsonWs rest).isEmpty
  | none => false

/-! ## Concrete instances used by the claim theorems -/

/-- A user for exercising `callStart`. -/
def c1User : WUser := { userId := "u", clientId := "c" }

/-- A non-terminal (OUTGOING) video call already stored in the active-call
map. -/
def c1ExistingCall : WCall :=
  { conversationId := "conv"
    state := CALL_STATE.OUTGOING
    callType := CALL_TYPE.VIDEO
    conversationType := CONVERSATION_TYPE.ONEONONE
    audioCbr := false }

/-- A callAPI state whose active-call map already holds `c1ExistingCall`
under the identifier derived for `c1User` and conversation `"conv"`. -/
def c1State : CallAPIState :=
  { callConfig := none
    activeCalls := [(generateCallId c1User "conv", c1ExistingCall)] }

/-- A conversation entity with zero participants. -/
def c3EmptyConversation : ConversationEntity :=
  { participatingUserIds := [], supportsVideoCall := fun _ => true }

/-- A user for exercising `startCall`. -/
def c3User : WUser := { userId := "self", clientId := "client1" }

/-- A callAPI state with no active calls. -/
def c3State : CallAPIState := { callConfig := none, activeCalls := [] }

/-! ## Claim theorems -/

/-- C1: the claim says that invoking `callStart` for a key whose entry in the
active-call map is already present in a non-terminal state rejects the second
creation and keeps the existing entry.  The code does neither: the branch on
the looked-up active call is empty (`//Do Stuff`), the existing non-terminal
entry is silently replaced by a fresh OUTGOING call with the newly requested
parameters, and `callStart` returns `true`.  Evaluated here at a state whose
map already holds a non-terminal VIDEO call: after the second `callStart`
(audio), the stored entry is the new NORMAL call, not the original. -/
theorem C1_callStart_overwrites_active_entry :
    CALL_STATE.isTerminal c1ExistingCall.state = false ∧
    (callStart c1State c1User "conv"
        CALL_TYPE.NORMAL CONVERSATION_TYPE.ONEONONE false).2 = true ∧
    lookupActiveCall
        (callStart c1State c1User "conv"
          CALL_TYPE.NORMAL CONVERSATION_TYPE.ONEONONE false).1.activeCalls
        (generateCallId c1User "conv")
      = some { conversationId := "conv"
               state := CALL_STATE.OUTGOING
               callType := CALL_TYPE.NORMAL
               conversationType := CONVERSATION_TYPE.ONEONONE
               audioCbr := false } ∧
    lookupActiveCall
        (callStart c1State c1User "conv"
          CALL_TYPE.NORMAL CONVERSATION_TYPE.ONEONONE false).1.activeCalls
        (generateCallId c1User "conv")
      ≠ some c1ExistingCall := by
  decide

/-- C3: the claim says starting a call in a conversation with zero
participants fails with `NotSupported` and creates no call entry.  The
zero-participant rejection exists in `_checkCallingSupport` (first conjunct),
but `startCall` never invokes it: it forwards straight to the calling api's
`start`, which records a fresh OUTGOING entry in the active-call map and
returns `true` (remaining conjuncts) — so for an empty conversation a
CallSession is created and no error is raised. -/
theorem C3_startCall_skips_support_check :
    checkCallingSupport true c3EmptyConversation MediaType.AUDIO AVS_STATE.OUTGOING
      = Except.error CallErrorType.NOT_SUPPORTED ∧
    (startCall c3State c3User "conv" CONVERSATION_TYPE.ONEONONE CALL_TYPE.NORMAL).2
      = true ∧
    lookupActiveCall
        (startCall c3State c3User "conv"
          CONVERSATION_TYPE.ONEONONE CALL_TYPE.NORMAL).1.activeCalls
        (generateCallId c3User "conv")
      = some { conversationId := "conv"
               state := CALL_STATE.OUTGOING
               callType := CALL_TYPE.NORMAL
               conversationType := CONVERSATION_TYPE.ONEONONE
               audioCbr := false } := by
  refine ⟨rfl, rfl, ?_⟩
  decide

/-- C8: the claim says every session id placed in the `sessid` field of an
outbound signaling payload is a 4-character `[A-Za-z0-9_]` token.  The SETUP
payload assembled by `callStart` passes the hardcoded 5-character literal
`'felix'` as the session id, which fails the pattern (its length is 5, not
4). -/
theorem C8_sessid_is_felix_not_four_chars :
    (callStartSetupMessage "v=0").sessid = "felix" ∧
    "felix".length = 5 ∧
    matchesSessionIdPattern (callStartSetupMessage "v=0").sessid = false := by
  decide

/-- C10: for a (user, conversation) pair whose derived call identifier has no
entry in the active-call map, `callGetState` returns `CALL_STATE.UNKNOWN`
(which is distinct from `NONE`), and when an entry exists it returns that
call's recorded `state` field unchanged. -/
theorem C10_callGetState_unknown_or_stored (st : CallAPIState) (wUser : WUser)
    (conversationId : String) :
    (lookupActiveCall st.activeCalls (generateCallId wUser conversationId) = none →
      callGetState st wUser conversationId = CALL_STATE.UNKNOWN) ∧
    (∀ c : WCall,
      lookupActiveCall st.activeCalls (generateCallId wUser conversationId) = some c →
      callGetState st wUser conversationId = c.state) ∧
    CALL_STATE.UNKNOWN ≠ CALL_STATE.NONE := by
  refine ⟨fun h => ?_, fun c h => ?_, by decide⟩
  · simp [callGetState, h]
  · simp [callGetState, h]

/-- Witness for C10: on a state with an empty active-call map, `callGetState`
returns `UNKNOWN`. -/
theorem C10_callGetState_witness :
    callGetState c3State c1User "conv" = CALL_STATE.UNKNOWN :=
  (C10_callGetState_unknown_or_stored c3State c1User "conv").1 (by decide)

/-- Teardown never touches the reconnect attempt counter. -/
theorem resetTeardown_reconnectCount (s : WsState) :
    (resetTeardown s).reconnectCount = s.reconnectCount := by
  unfold resetTeardown
  cases s.socket with
  | none => rfl
  | some sock => by_cases h : sock.handlersAttached <;> simp [h]

/-- `connect` never touches the reconnect attempt counter (it is reset only
by the success continuation `reconnectSucceeded`). -/
theorem connect_reconnectCount (s : WsState) :
    (connect s).1.reconnectCount = s.reconnectCount := by
  unfold connect
  by_cases h : s.socket.isSome <;>
    simp [h, resetTeardown_reconnectCount]

/-- C2: when `sendPing` fires on an open socket while the pending-ping flag
is already set (two consecutive keepalive intervals without a pong), exactly
one reconnect is triggered, with reason `PING_INTERVAL`.  The hypotheses pin
the state a live connection is in when the keepalive timer runs: handlers
attached, a valid stored access token, and an attempt counter already reset
to zero by the last successful connect.  The immediate reconnect tears the
old socket down, which disarms the keepalive timer and clears the
pending-ping flag — so the same liveness failure cannot fire a second
`PING_INTERVAL` reconnect. -/
theorem C2_single_ping_interval_reconnect (s : WsState) (sock : WsSocket)
    (hsock : s.socket = some sock)
    (hopen : sock.readyState = 1)
    (hhandlers : sock.handlersAttached = true)
    (hpending : s.hasAlreadySentUnansweredPing = true)
    (htoken : s.accessTokenStored = true)
    (hcount : s.reconnectCount = 0) :
    sendPing s = Except.ok (reconnect s CHANGE_TRIGGER.PING_INTERVAL) ∧
    countPingReconnects (reconnect s CHANGE_TRIGGER.PING_INTERVAL).2 = 1 ∧
    (reconnect s CHANGE_TRIGGER.PING_INTERVAL).1.pingIntervalArmed = false ∧
    (reconnect s CHANGE_TRIGGER.PING_INTERVAL).1.hasAlreadySentUnansweredPing
      = false := by
  refine ⟨by simp [sendPing, hsock, hopen, hpending], ?_, ?_, ?_⟩ <;>
    simp [reconnect, htoken, hcount, connect, resetTeardown, hsock, hhandlers,
      countPingReconnects]

/-- Witness state for C2: an open connection with an unanswered ping. -/
def c2State : WsState :=
  { webSocketUrl := "wss://prod-nginz-ssl.example"
    accessToken := "token"
    clientId := none
    connectionUrl := ""
    socket := some { readyState := 1, handlersAttached := true }
    pingIntervalArmed := true
    hasAlreadySentUnansweredPing := true
    reconnectTimerArmed := false
    reconnectCount := 0
    pendingReconnectTrigger := none
    accessTokenStored := true }

/-- Witness for C2 at the concrete state `c2State`. -/
theorem C2_single_ping_interval_reconnect_witness :
    sendPing c2State = Except.ok (reconnect c2State CHANGE_TRIGGER.PING_INTERVAL) ∧
    countPingReconnects (reconnect c2State CHANGE_TRIGGER.PING_INTERVAL).2 = 1 ∧
    (reconnect c2State CHANGE_TRIGGER.PING_INTERVAL).1.pingIntervalArmed = false ∧
    (reconnect c2State CHANGE_TRIGGER.PING_INTERVAL).1.hasAlreadySentUnansweredPing
      = false :=
  C2_single_ping_interval_reconnect c2State
    { readyState := 1, handlersAttached := true } rfl rfl rfl rfl rfl rfl

/-- C4 (amended): for a frame whose decoded text is not `"pong"`, the message
handler feeds the text to `JSON.parse` unconditionally: when it parses, the
deliver-callback is invoked with it and the connection state is untouched;
when it does not parse, the `SyntaxError` escapes the handler (the source has
no try/catch), rather than being logged and dropped. -/
theorem C4_message_handler_behavior (jsonOk : String → Bool) (s : WsState)
    (text : String) (hnotpong : text ≠ "pong") :
    (jsonOk text = true →
      onSocketMessage jsonOk s text = Except.ok (s, [WsEffect.notify text])) ∧
    (jsonOk text = false →
      onSocketMessage jsonOk s text = Except.error JsError.jsonParseError) := by
  constructor <;> intro h <;> simp [onSocketMessage, hnotpong, h]

/-- An arbitrary connected state for exercising the message handler. -/
def c4State : WsState :=
  { webSocketUrl := "wss://prod-nginz-ssl.example"
    accessToken := "token"
    clientId := some "client4"
    connectionUrl := ""
    socket := some { readyState := 1, handlersAttached := true }
    pingIntervalArmed := true
    hasAlreadySentUnansweredPing := false
    reconnectTimerArmed := false
    reconnectCount := 0
    pendingReconnectTrigger := none
    accessTokenStored := true }

/-- Counterexample for C4 as stated: the frame text `"hello"` is neither
`"pong"` nor valid JSON, and on it the message handler raises the parse
error instead of logging and dropping the payload. -/
theorem C4_malformed_frame_counterexample :
    jsonParseAccepts "hello" = false ∧
    onSocketMessage jsonParseAccepts c4State "hello"
      = Except.error JsError.jsonParseError :=
  ⟨rfl, rfl⟩

/-- Witness for C4 at a valid JSON frame: the literal `"null"` parses and is
delivered to the callback. -/
theorem C4_message_handler_witness :
    onSocketMessage jsonParseAccepts c4State "null"
      = Except.ok (c4State, [WsEffect.notify "null"]) :=
  (C4_message_handler_behavior jsonParseAccepts c4State "null" (by decide)).1
    (by decide)

/-- C6: with a valid stored credential, `reconnect` increments the attempt
counter; when the incremented counter equals 1 the connect attempt happens in
the same step with no scheduling delay, and for every larger counter value
the attempt is armed on the fixed `RECONNECT_INTERVAL` timer instead; the
success continuation resets the counter to zero. -/
theorem C6_reconnect_attempt_scheduling (s : WsState) (trigger : CHANGE_TRIGGER)
    (htoken : s.accessTokenStored = true) :
    (reconnect s trigger).1.reconnectCount = s.reconnectCount + 1 ∧
    (s.reconnectCount = 0 →
      (reconnect s trigger).2 =
        [WsEffect.reconnectTriggered trigger,
         WsEffect.connectAttempt
           (computeConnectionUrl
             { s with reconnectCount := s.reconnectCount + 1 })]) ∧
    (s.reconnectCount ≠ 0 →
      (reconnect s trigger).2 =
        [WsEffect.reconnectTriggered trigger,
         WsEffect.scheduleReconnect RECONNECT_INTERVAL_MS] ∧
      (reconnect s trigger).1 =
        { s with reconnectCount := s.reconnectCount + 1,
                 reconnectTimerArmed := true }) ∧
    (∀ s2 : WsState, (reconnectSucceeded s2).1.reconnectCount = 0) := by
  by_cases hc : s.reconnectCount = 0
  · refine ⟨?_, fun _ => ?_, fun hne => absurd hc hne, fun s2 => rfl⟩
    · simp [reconnect, htoken, hc, connect_reconnectCount]
    · simp [reconnect, htoken, hc, connect, computeConnectionUrl]
  · have hne : ¬ s.reconnectCount + 1 = 1 := by omega
    refine ⟨?_, fun h0 => absurd h0 hc, fun _ => ⟨?_, ?_⟩, fun s2 => rfl⟩ <;>
      simp [reconnect, htoken, hne]

/-- Witness state for C6: a dropped connection with a valid token and a
counter at zero (about to make attempt #1). -/
def c6State : WsState :=
  { webSocketUrl := "wss://prod-nginz-ssl.example"
    accessToken := "token"
    clientId := none
    connectionUrl := ""
    socket := none
    pingIntervalArmed := false
    hasAlreadySentUnansweredPing := false
    reconnectTimerArmed := false
    reconnectCount := 0
    pendingReconnectTrigger := none
    accessTokenStored := true }

/-- Witness for C6 at `c6State`: attempt #1 connects in the same step. -/
theorem C6_reconnect_attempt_scheduling_witness :
    (reconnect c6State CHANGE_TRIGGER.CLOSE).1.reconnectCount
      = c6State.reconnectCount + 1 ∧
    (reconnect c6State CHANGE_TRIGGER.CLOSE).2 =
      [WsEffect.reconnectTriggered CHANGE_TRIGGER.CLOSE,
       WsEffect.connectAttempt
         (computeConnectionUrl
           { c6State with reconnectCount := c6State.reconnectCount + 1 })] :=
  ⟨(C6_reconnect_attempt_scheduling c6State CHANGE_TRIGGER.CLOSE rfl).1,
   (C6_reconnect_attempt_scheduling c6State CHANGE_TRIGGER.CLOSE rfl).2.1 rfl⟩

/-- C7: with the stored credential absent, `reconnect(trigger)` attempts no
socket open — it records the trigger as the pending reconnect trigger and
publishes a token-renewal request, leaving everything else unchanged; when
`pendingReconnect` later runs with a recorded trigger, it invokes `reconnect`
with exactly that trigger (the first effect of every `reconnect` run is its
trigger) and leaves the recorded trigger cleared. -/
theorem C7_credential_gated_reconnect :
    (∀ (s : WsState) (trigger : CHANGE_TRIGGER), s.accessTokenStored = false →
      reconnect s trigger =
        ({ s with pendingReconnectTrigger := some trigger },
         [WsEffect.reconnectTriggered trigger, WsEffect.requestTokenRefresh])) ∧
    (∀ (s : WsState) (trigger : CHANGE_TRIGGER),
      s.pendingReconnectTrigger = some trigger →
      pendingReconnect s =
        ({ (reconnect s trigger).1 with pendingReconnectTrigger := none },
         (reconnect s trigger).2)) ∧
    (∀ (s : WsState) (trigger : CHANGE_TRIGGER),
      ((reconnect s trigger).2).head? = some (WsEffect.reconnectTriggered trigger)) := by
  refine ⟨fun s trigger h => by simp [reconnect, h],
          fun s trigger h => by simp [pendingReconnect, h],
          fun s trigger => ?_⟩
  by_cases h : s.accessTokenStored = false
  · simp [reconnect, h]
  · by_cases h1 : s.reconnectCount + 1 = 1 <;> simp [reconnect, h, h1]

/-- Witness state for C7, part one: reconnect requested while the stored
access token is absent. -/
def c7aState : WsState :=
  { webSocketUrl := "wss://prod-nginz-ssl.example"
    accessToken := ""
    clientId := none
    connectionUrl := ""
    socket := none
    pingIntervalArmed := false
    hasAlreadySentUnansweredPing := false
    reconnectTimerArmed := false
    reconnectCount := 0
    pendingReconnectTrigger := none
    accessTokenStored := false }

/-- Witness state for C7, part two: the refresher has renewed the token and a
pending reconnect trigger is recorded. -/
def c7bState : WsState :=
  { webSocketUrl := "wss://prod-nginz-ssl.example"
    accessToken := "renewed"
    clientId := none
    connectionUrl := ""
    socket := none
    pingIntervalArmed := false
    hasAlreadySentUnansweredPing := false
    reconnectTimerArmed := false
    reconnectCount := 0
    pendingReconnectTrigger := some CHANGE_TRIGGER.ERROR
    accessTokenStored := true }

/-- Witness for C7 at the concrete states `c7aState` and `c7bState`. -/
theorem C7_credential_gated_reconnect_witness :
    reconnect c7aState CHANGE_TRIGGER.CLOSE =
      ({ c7aState with pendingReconnectTrigger := some CHANGE_TRIGGER.CLOSE },
       [WsEffect.reconnectTriggered CHANGE_TRIGGER.CLOSE,
        WsEffect.requestTokenRefresh]) ∧
    pendingReconnect c7bState =
      ({ (reconnect c7bState CHANGE_TRIGGER.ERROR).1 with
          pendingReconnectTrigger := none },
       (reconnect c7bState CHANGE_TRIGGER.ERROR).2) :=
  ⟨C7_credential_gated_reconnect.1 c7aState CHANGE_TRIGGER.CLOSE rfl,
   C7_credential_gated_reconnect.2.1 c7bState CHANGE_TRIGGER.ERROR rfl⟩

/-- The empty configuration-cache state (no stored config, no timer). -/
def emptyConfigState : ConfigState :=
  { callingConfig := none, callingConfigTimeout := none }

/-- A backend response carrying `ttl = 100` seconds. -/
def ttl100Response : FetchedConfig := { ttl := some 100 }

/-- The cache state right after a successful config fetch with `ttl = 100`
completed at time `now` (integral milliseconds). -/
def afterFetch100 (now : Int) : ConfigState :=
  (getConfigFromBackend emptyConfigState now (some ttl100Response)).1

/-- A `ttl = 100` fetch at time `now` stores the config with expiration
`now + 90000` ms (`min(100 * 0.9, 3600) = 90` seconds) and arms the refresh
timer with that same delay. -/
theorem afterFetch100_eq (now : Int) :
    afterFetch100 now =
      { callingConfig := some { ttl := some 100, expiration := now + 90000 }
        callingConfigTimeout := some 90000 } := by
  have h90 : configTimeoutMs { ttl := some 100 } = 90000 := by
    norm_num [configTimeoutMs, DEFAULT_CONFIG_TTL]
  unfold afterFetch100 getConfigFromBackend
  simp [ttl100Response, h90]

/-- C5 (amended): after a successful config fetch with `ttl = 100` seconds at
time `now`, the cache lifetime is `min(ttl * 0.9, DEFAULT_CONFIG_TTL)` = 90
seconds, and a `getConfig()` call at time `t` takes the backend-fetch path
exactly when `t` is STRICTLY past `now + 90` seconds — a call at exactly
`now + 90` s still returns the cached value, because the staleness check is
`expiration.getTime() < Date.now()` (strict). -/
theorem C5_config_cache_lifetime (now t : Int) (resp : Option FetchedConfig) :
    (afterFetch100 now).callingConfig
      = some { ttl := some 100, expiration := now + 90000 } ∧
    ((getConfig (afterFetch100 now) t resp).2.isFetch = true ↔ now + 90000 < t) := by
  rw [afterFetch100_eq]
  refine ⟨rfl, ?_⟩
  by_cases h : now + 90000 < t
  · simp only [getConfig, h, if_pos h]
    cases resp <;>
      simp [getConfigFromBackend, GetConfigOutcome.isFetch, h]
  · simp [getConfig, h, GetConfigOutcome.isFetch]

/-- Counterexample for C5 as stated: the claim requires a fresh backend fetch
for every call at or after `now + 90` s, but a `getConfig()` issued at
exactly `now + 90000` ms (here with `now = 0`) returns the cached value and
performs no fetch. -/
theorem C5_boundary_counterexample :
    (getConfig (afterFetch100 0) 90000 (some ttl100Response)).2
      = GetConfigOutcome.cached { ttl := some 100, expiration := 90000 } ∧
    (getConfig (afterFetch100 0) 90000 (some ttl100Response)).2.isFetch = false := by
  rw [afterFetch100_eq]
  refine ⟨?_, ?_⟩ <;> simp [getConfig, GetConfigOutcome.isFetch]

/-- An orchestrator state with no active calls. -/
def c9Repo : RepoState := { activeCalls := [] }

/-- An inbound CANCEL event for a conversation with no active call. -/
def c9CancelEvent : InboundCallEvent :=
  { contentType := "CANCEL"
    conversation := "conv9"
    fromUser := "user9"
    sender := "client9"
    time := "2018-01-01T12:00:00.000Z" }

/-- Counterexample for C9 as stated: processing an inbound CANCEL while the
active-call set is empty is not a no-op — when the engine accepts the message
(`recv_msg` returns 0), a deactivation record is still emitted to the Event
Sink. -/
theorem C9_cancel_no_session_counterexample :
    c9Repo.activeCalls = [] ∧
    (onCallEvent 0 c9Repo c9CancelEvent).2 ≠ [] := by
  refine ⟨rfl, ?_⟩
  decide

/-- C9 (amended): processing an inbound CANCEL raises no error and never
touches the active-call set, whether or not a CallSession exists for the
conversation; but the handler does not consult the active-call set at all — a
`Missed` deactivation record is emitted exactly when the engine's `recv_msg`
returns 0, and the no-record behaviour holds only when the engine rejects the
message (non-zero result). -/
theorem C9_cancel_event_effects (recvRes : Int) (repo : RepoState)
    (ev : InboundCallEvent) (hcancel : ev.contentType = "CANCEL") :
    (onCallEvent recvRes repo ev).1 = repo ∧
    (onCallEvent recvRes repo ev).2 =
      (if recvRes = 0 then
        [SinkRecord.voiceChannelDeactivate ev.conversation ev.fromUser
           TERMINATION_REASON.MISSED ev.time]
      else []) := by
  by_cases h : recvRes = 0
  · have hns : ev.contentType ≠ "SETUP" := by rw [hcancel]; decide
    simp [onCallEvent, h, hcancel, hns]
  · simp [onCallEvent, h]

/-- Witness for C9 at the concrete CANCEL event `c9CancelEvent` with an
accepting engine result. -/
theorem C9_cancel_event_effects_witness :
    (onCallEvent 0 c9Repo c9CancelEvent).1 = c9Repo ∧
    (onCallEvent 0 c9Repo c9CancelEvent).2 =
      (if (0 : Int) = 0 then
        [SinkRecord.voiceChannelDeactivate c9CancelEvent.conversation
           c9CancelEvent.fromUser TERMINATION_REASON.MISSED c9CancelEvent.time]
      else []) :=
  C9_cancel_event_effects 0 c9Repo c9CancelEvent rfl
